import Mathlib

set_option autoImplicit false

/-!
Shallow embedding of `src/main.py` (Google Apps Script manifest retriever):
the retry policy wrapping remote reads, the manifest extractor, the paginated
collectors, the per-user scan task, the batching buffer, the merge-upsert sink,
the main handler and the module-level startup check.  Remote services are
modelled as explicit response data (page lists, per-attempt responses); Python
exceptions become `Except PyErr`; Python truthiness of optional strings is
modelled explicitly.
-/

namespace ManifestRetriever

/-- Exceptions that a remote call may raise: `HttpError` with its status,
`google_api_exceptions.TooManyRequests`, `tenacity.RetryError` wrapping the
last failed attempt (raised by the retry decorator on exhaustion, since the
decorator is used without `reraise=True`), or any other exception. -/
inductive PyErr where
  | httpError (status : Nat)
  | tooManyRequests
  | retryError (last : PyErr)
  | other (msg : String)
  deriving DecidableEq

/-- `retry_if_exception_type((TooManyRequests, HttpError))` from the decorator
on `get_manifest_content`; `RetryError` and anything else is not retried. -/
def isRetryable : PyErr → Bool
  | .httpError _ => true
  | .tooManyRequests => true
  | .retryError _ => false
  | .other _ => false

/-- tenacity `wait_exponential(multiplier, min, max)`: the sleep after attempt
number `n` (1-based) is `multiplier * 2 ^ n` clamped into `[min, max]`. -/
def wait_exponential (multiplier minW maxW n : Nat) : Nat :=
  max (max 0 minW) (min (multiplier * 2 ^ n) maxW)

/-- The wait schedule of the decorator: `wait_exponential(multiplier=1, min=2, max=10)`. -/
def tenacityWait (n : Nat) : Nat :=
  wait_exponential 1 2 10 n

/-- tenacity retry loop with `stop_after_attempt`: run `op` on attempt index
`idx` (0-based; the operation may answer differently on each attempt); on a
retryable error with attempts remaining, sleep `waitFn` and try again; a
non-retryable error is re-raised unmodified; a retryable error on the last
allowed attempt makes the decorator (used without `reraise=True`) raise
`RetryError` wrapping that last error.  Returns the final result, the number
of invocations made, and the list of sleeps performed.  The `rem = 0` case is
never reached when started with a positive attempt budget. -/
def retryLoop {α : Type} (op : Nat → Except PyErr α) (waitFn : Nat → Nat) :
    Nat → Nat → Except PyErr α × Nat × List Nat
  | _, 0 => (.error .tooManyRequests, 0, [])
  | idx, rem + 1 =>
    match op idx with
    | .ok a => (.ok a, 1, [])
    | .error e =>
      if isRetryable e then
        if rem != 0 then
          match retryLoop op waitFn (idx + 1) rem with
          | (r, n, ws) => (r, n + 1, waitFn (idx + 1) :: ws)
        else (.error (.retryError e), 1, [])
      else (.error e, 1, [])

/-- The retry policy of `get_manifest_content`: `stop_after_attempt(3)` with
the exponential wait schedule, starting at attempt index 0. -/
def retryCall {α : Type} (op : Nat → Except PyErr α) : Except PyErr α × Nat × List Nat :=
  retryLoop op tenacityWait 0 3

/-- One entry of the `files` list of a `projects().getContent` response; each
field is read with `dict.get` and may be absent. -/
structure FileEntry where
  name : Option String
  ftype : Option String
  source : Option String
  deriving DecidableEq

/-- The scan loop in the body of `get_manifest_content`: return the `source`
of the first file whose `name` is `appsscript` and whose `type` is `JSON`,
and `None` when no file matches. -/
def findManifest : List FileEntry → Option String
  | [] => none
  | f :: fs =>
    if f.name = some "appsscript" && f.ftype = some "JSON" then f.source
    else findManifest fs

/-- Log lines the extractor can emit. -/
inductive ScanLog where
  | warnAccess (scriptId : Option String) (status : Nat)
  | errUnknown (scriptId : Option String)
  deriving DecidableEq

/-- One (undecorated) invocation of `get_manifest_content`, given the response
of `projects().getContent(...)`: on success scan for the manifest file; an
`HttpError` is re-raised (with a warning logged when its status is 403 or
404); any other exception is logged and converted to `None`. -/
def get_manifest_content_once (scriptId : Option String)
    (resp : Except PyErr (List FileEntry)) : Except PyErr (Option String) × List ScanLog :=
  match resp with
  | .ok files => (.ok (findManifest files), [])
  | .error (.httpError st) =>
    (.error (.httpError st),
      if st = 403 || st = 404 then [.warnAccess scriptId st] else [])
  | .error _ => (.ok none, [.errUnknown scriptId])

/-- The decorated `get_manifest_content`: the body run under the tenacity
retry policy; `resp n` is the remote response on attempt index `n`. -/
def get_manifest_content (scriptId : Option String)
    (resp : Nat → Except PyErr (List FileEntry)) : Except PyErr (Option String) × Nat × List Nat :=
  retryCall (fun n => (get_manifest_content_once scriptId (resp n)).1)

/-- One entry of a Drive `files().list` page (`fields='files(id, name)'`). -/
structure DriveFile where
  id : Option String
  name : Option String
  deriving DecidableEq

/-- One row appended to `manifest_rows` / loaded into BigQuery. -/
structure ManifestRow where
  script_id : Option String
  script_name : Option String
  owner_email : Option String
  manifest_content : String
  extraction_date : String
  deriving DecidableEq

/-- The remote world one user scan sees: whether each impersonated service
acquisition succeeds, the sequence of Drive listing pages (the last list
element is the page without a `nextPageToken`; an `error` element is the page
call raising), and the per-script, per-attempt `getContent` responses. -/
structure ScanEnv where
  driveOk : Bool
  scriptOk : Bool
  drivePages : List (Except PyErr (List DriveFile))
  content : Option String → Nat → Except PyErr (List FileEntry)

/-- The inner `for f in files` loop of `scan_user_for_manifests`: fetch each
file's manifest through the retry wrapper; a truthy (non-empty) result is
appended as a row; a falsy result or any exception skips to the next file. -/
def processFiles (env : ScanEnv) (email : Option String) (now : String) :
    List DriveFile → List ManifestRow → List ManifestRow
  | [], acc => acc
  | f :: fs, acc =>
    match (get_manifest_content f.id (env.content f.id)).1 with
    | .ok (some s) =>
      if s = "" then processFiles env email now fs acc
      else processFiles env email now fs (acc ++ [⟨f.id, f.name, email, s, now⟩])
    | .ok none => processFiles env email now fs acc
    | .error _ => processFiles env email now fs acc

/-- The paging loop of `scan_user_for_manifests`: pages are processed in
order inside a `try`; a page failure is caught, logged, and the rows
accumulated so far are returned. -/
def scanPages (env : ScanEnv) (email : Option String) (now : String) :
    List (Except PyErr (List DriveFile)) → List ManifestRow → List ManifestRow
  | [], acc => acc
  | .ok files :: ps, acc => scanPages env email now ps (processFiles env email now files acc)
  | .error _ :: _, acc => acc

/-- `scan_user_for_manifests`: acquire the two impersonated services; on
either failure return `[]`; otherwise collect rows over the Drive pages. -/
def scan_user_for_manifests (env : ScanEnv) (email : Option String) (now : String) :
    List ManifestRow :=
  if env.driveOk && env.scriptOk then scanPages env email now env.drivePages []
  else []

/-- One entry of a Directory `users().list` page. -/
structure DomainUser where
  primaryEmail : Option String
  suspended : Bool
  deriving DecidableEq

/-- The paging loop of `get_all_domain_users`: append each page's
non-suspended users; a page failure aborts the whole collection. -/
def collectUsers : List (Except PyErr (List DomainUser)) → List DomainUser →
    Except PyErr (List DomainUser)
  | [], acc => .ok acc
  | .ok us :: ps, acc => collectUsers ps (acc ++ us.filter (fun u => !u.suspended))
  | .error e :: _, _ => .error e

/-- `get_all_domain_users`: the paging loop inside a `try`; any failure is
caught, logged, and `[]` is returned (the partial accumulator is dropped). -/
def get_all_domain_users (pages : List (Except PyErr (List DomainUser))) : List DomainUser :=
  match collectUsers pages [] with
  | .ok us => us
  | .error _ => []

/-- SQL equality for the `ON T.script_id = S.script_id` clause: `NULL` never
compares equal. -/
def sqlEq : Option String → Option String → Bool
  | some a, some b => a = b
  | _, _ => false

/-- `WHEN MATCHED THEN UPDATE SET ...`: overwrite all mutable fields of the
target row from the staging row. -/
def updateRow (t s : ManifestRow) : ManifestRow :=
  ⟨t.script_id, s.script_name, s.owner_email, s.manifest_content, s.extraction_date⟩

/-- The `MERGE` statement of `execute_merge_query`: each target row matched by
a staging row on `script_id` is updated from it; staging rows matching no
target row are inserted. -/
def applyMerge (target batch : List ManifestRow) : List ManifestRow :=
  (target.map fun t =>
    match batch.find? (fun s => sqlEq t.script_id s.script_id) with
    | some s => updateRow t s
    | none => t) ++
  batch.filter (fun s => !target.any (fun t => sqlEq t.script_id s.script_id))

/-- Failure injection for the sink: whether the staging load (schema fetch or
load job) raises and whether the merge query raises. -/
structure SinkEnv where
  loadFails : Bool
  mergeFails : Bool
  deriving DecidableEq

/-- BigQuery state seen by one flush: the target table's rows and the staging
table for this flush (`none` when it does not exist). -/
structure BQState where
  target : List ManifestRow
  staging : Option (List ManifestRow)
  deriving DecidableEq

/-- Outcome of `execute_merge_query`: final store state, whether the call
raised to its caller, and whether the failure log line was emitted. -/
structure FlushOutcome where
  state : BQState
  raised : Bool
  errorLogged : Bool
  deriving DecidableEq

/-- The `try` block of `execute_merge_query`: fetch the target schema and load
the batch into the staging table (`WRITE_TRUNCATE`), then run the merge.
Returns the state after the body and whether an exception escaped the body. -/
def mergeTryBody (env : SinkEnv) (batch : List ManifestRow) (s : BQState) : BQState × Bool :=
  if env.loadFails then (s, true)
  else
    let s1 : BQState := ⟨s.target, some batch⟩
    if env.mergeFails then (s1, true)
    else (⟨applyMerge s1.target batch, s1.staging⟩, false)

/-- The `finally` block: `delete_table(temp_table_ref, not_found_ok=True)`. -/
def deleteStaging (s : BQState) : BQState := ⟨s.target, none⟩

/-- `execute_merge_query`: an empty batch returns before touching the store;
otherwise the try body runs, any exception is caught and logged, and the
`finally` block deletes the staging table on every path.  The call never
re-raises. -/
def execute_merge_query (env : SinkEnv) (batch : List ManifestRow) (s : BQState) :
    FlushOutcome :=
  if batch.isEmpty then ⟨s, false, false⟩
  else
    match mergeTryBody env batch s with
    | (s1, failed) => ⟨deleteStaging s1, false, failed⟩

/-- `BQ_BATCH_SIZE` from the module configuration. -/
def BQ_BATCH_SIZE : Nat := 500

/-- The `BigQueryBatcher` instance state. -/
structure BigQueryBatcher where
  table_id : String
  buffer : List ManifestRow
  deriving DecidableEq

/-- `BigQueryBatcher.flush`: a no-op on an empty buffer; otherwise hand the
whole buffer to `execute_merge_query` and clear it.  The second component
records the sink calls made (each element is one batch handed to the sink). -/
def BigQueryBatcher.flush (b : BigQueryBatcher) : BigQueryBatcher × List (List ManifestRow) :=
  if b.buffer.isEmpty then (b, [])
  else (⟨b.table_id, []⟩, [b.buffer])

/-- `BigQueryBatcher.add`: an empty argument returns immediately; otherwise
extend the buffer and flush when it has reached `BQ_BATCH_SIZE`. -/
def BigQueryBatcher.add (b : BigQueryBatcher) (rows : List ManifestRow) :
    BigQueryBatcher × List (List ManifestRow) :=
  if rows.isEmpty then (b, [])
  else
    let b1 : BigQueryBatcher := ⟨b.table_id, b.buffer ++ rows⟩
    if BQ_BATCH_SIZE ≤ b1.buffer.length then b1.flush else (b1, [])

/-- The world one `main_handler` invocation sees: whether the admin directory
service acquisition succeeds, the directory listing pages, each user's scan
environment, the configured table id, and the timestamp. -/
structure MainEnv where
  adminOk : Bool
  userPages : List (Except PyErr (List DomainUser))
  scanEnv : Option String → ScanEnv
  tableId : String
  now : String

/-- `main_handler`: admin impersonation, user listing, fan-out of user scans
feeding the batcher, trailing flush.  The worker pool is modelled as the scans
completing in submission order (no claim here depends on completion order).
The second component is the list of sink calls made. -/
def main_handler (env : MainEnv) : (String × Nat) × List (List ManifestRow) :=
  if !env.adminOk then (("Admin Auth Failure", 500), [])
  else
    let users := get_all_domain_users env.userPages
    if users.isEmpty then (("No Users Found", 200), [])
    else
      let step := fun (st : BigQueryBatcher × List (List ManifestRow)) (u : DomainUser) =>
        let rows := scan_user_for_manifests (env.scanEnv u.primaryEmail) u.primaryEmail env.now
        match st.1.add rows with
        | (b1, calls) => (b1, st.2 ++ calls)
      let st := users.foldl step (⟨env.tableId, []⟩, [])
      match st.1.flush with
      | (_, fcalls) => (("Success", 200), st.2 ++ fcalls)

/-- The raw environment variables read at module load (`os.environ.get`). -/
structure EnvVars where
  project_id : Option String
  dataset_id : Option String
  manifest_table_id : Option String
  admin_user_email : Option String
  service_account_email : Option String
  deriving DecidableEq

/-- Python truthiness of an optional string: `None` and the empty string are
falsy. -/
def pyTruthy : Option String → Bool
  | none => false
  | some s => !(s = "")

/-- Python `str.split('.')` over the character list: split at every dot,
keeping empty segments. -/
def splitDotAux : List Char → List Char → List (List Char)
  | [], cur => [cur.reverse]
  | c :: cs, cur =>
    if c = '.' then cur.reverse :: splitDotAux cs [] else splitDotAux cs (c :: cur)

/-- The sanitization applied to a present config string: when it is truthy and
contains a dot (`'.' in s`), keep only the part after the last dot
(`split('.')[-1]`). -/
def sanitizePy (s : String) : String :=
  if !(s = "") && s.data.any (fun c => c = '.') then
    ⟨(splitDotAux s.data []).getLastD s.data⟩
  else s

/-- Sanitization lifted to an optional value (`if DATASET_ID and '.' in ...`). -/
def sanitizeOpt : Option String → Option String
  | none => none
  | some s => some (sanitizePy s)

/-- The module-level globals after the configuration block. -/
structure ModuleConfig where
  project_id : Option String
  dataset_id : Option String
  manifest_table_id : String
  admin_user_email : Option String
  service_account_email : Option String
  deriving DecidableEq

/-- The module-level configuration block: read and sanitize the variables,
then `sys.exit(1)` (modelled as `.error 1`) unless `PROJECT_ID`,
`ADMIN_USER_EMAIL` and `SERVICE_ACCOUNT_EMAIL` are all truthy. -/
def startup (e : EnvVars) : Except Nat ModuleConfig :=
  let dataset := sanitizeOpt e.dataset_id
  let table := sanitizePy (e.manifest_table_id.getD "manifest_audit_log")
  if pyTruthy e.project_id && pyTruthy e.admin_user_email &&
      pyTruthy e.service_account_email then
    .ok ⟨e.project_id, dataset, table, e.admin_user_email, e.service_account_email⟩
  else .error 1

/-- The log lines emitted while the scan loop fetches one file's manifest:
each attempt the retry wrapper actually makes runs the extractor body once
and emits that body's log lines; the `except Exception: continue` skip site
itself logs nothing. -/
def attemptLogs (env : ScanEnv) (f : DriveFile) : List ScanLog :=
  ((List.range (get_manifest_content f.id (env.content f.id)).2.1).map
    (fun i => (get_manifest_content_once f.id (env.content f.id i)).2)).flatten

/-- Concrete scan environment with one Drive page holding one script whose
`getContent` raises `HttpError` 500 on every attempt. -/
def exScanEnv500 : ScanEnv :=
  ⟨true, true, [.ok [⟨some "f1", some "script one"⟩]],
   fun _ _ => .error (.httpError 500)⟩

/-- Concrete scan environment whose Drive listing succeeds on the first page
(one script file, with a manifest) and raises on the second page. -/
def exScanEnv : ScanEnv :=
  ⟨true, true,
   [.ok [⟨some "s1", some "script one"⟩], .error (.other "listing failed")],
   fun _ _ => .ok [⟨some "appsscript", some "JSON", some "manifest body"⟩]⟩

section Lemmas

lemma sqlEq_of_eq_some {a b : Option String} (hsome : a.isSome) (hab : a = b) :
    sqlEq a b = true := by
  cases a with
  | none => simp [Option.isSome] at hsome
  | some v => cases hab; simp [sqlEq]

lemma eq_of_sqlEq {a b : Option String} (h : sqlEq a b = true) : a = b := by
  cases a <;> cases b <;> simp_all [sqlEq]

lemma isSome_of_sqlEq {a b : Option String} (h : sqlEq a b = true) : a.isSome := by
  cases a <;> cases b <;> simp_all [sqlEq]

lemma filter_eq_singleton {α : Type} (l : List α) (p : α → Bool) (a : α)
    (hnd : l.Nodup) (ha : a ∈ l) (hpa : p a = true)
    (huniq : ∀ x ∈ l, p x = true → x = a) : l.filter p = [a] := by
  induction l with
  | nil => simp at ha
  | cons b bs ih =>
    rcases List.mem_cons.mp ha with hba | hmem
    · subst hba
      have hbs : bs.filter p = [] := by
        refine List.filter_eq_nil_iff.mpr ?_
        intro x hx hpx
        have hxb : x = a := huniq x (List.mem_cons_of_mem a hx) hpx
        exact absurd (hxb ▸ hx) (List.nodup_cons.mp hnd).1
      simp [List.filter_cons, hpa, hbs]
    · have hpb : p b = false := by
        by_contra hpb
        have hb : b = a := huniq b (List.mem_cons_self b bs) (by simpa using hpb)
        exact (List.nodup_cons.mp hnd).1 (hb ▸ hmem)
      have := ih (List.nodup_cons.mp hnd).2 hmem
        (fun x hx hpx => huniq x (List.mem_cons_of_mem b hx) hpx)
      simp [List.filter_cons, hpb, this]

end Lemmas

/-- C1: on a non-empty batch, `execute_merge_query` leaves no staging table on
any exit path (success, load failure, merge failure), never raises to its
caller, and logs an error exactly when the load or the merge failed. -/
theorem execute_merge_query_guaranteed_cleanup (env : SinkEnv) (batch : List ManifestRow)
    (s : BQState) (h : batch ≠ []) :
    (execute_merge_query env batch s).state.staging = none ∧
    (execute_merge_query env batch s).raised = false ∧
    (execute_merge_query env batch s).errorLogged = (env.loadFails || env.mergeFails) := by
  have hne : batch.isEmpty = false := by
    cases batch with
    | nil => exact absurd rfl h
    | cons a l => rfl
  cases hl : env.loadFails <;> cases hm : env.mergeFails <;>
    simp [execute_merge_query, mergeTryBody, deleteStaging, hne, hl, hm]

/-- Witness for C1 at a concrete failing load. -/
theorem execute_merge_query_guaranteed_cleanup_witness :
    (execute_merge_query ⟨true, false⟩ [⟨some "i", none, none, "m", "d"⟩]
        ⟨[], none⟩).state.staging = none ∧
    (execute_merge_query ⟨true, false⟩ [⟨some "i", none, none, "m", "d"⟩]
        ⟨[], none⟩).raised = false ∧
    (execute_merge_query ⟨true, false⟩ [⟨some "i", none, none, "m", "d"⟩]
        ⟨[], none⟩).errorLogged = (SinkEnv.loadFails ⟨true, false⟩ || SinkEnv.mergeFails ⟨true, false⟩) :=
  execute_merge_query_guaranteed_cleanup ⟨true, false⟩ [⟨some "i", none, none, "m", "d"⟩]
    ⟨[], none⟩ (by simp)

/-- C7: batching-buffer behaviour: an `add` that keeps the buffer below the
500-record threshold makes no sink call and keeps the appended buffer; an
`add` that reaches or crosses the threshold makes exactly one sink call
carrying all accumulated records and empties the buffer; `flush` on an empty
buffer makes no sink call; `flush` always leaves an empty buffer; and the
sink itself never raises, so clearing does not depend on the merge outcome. -/
theorem BigQueryBatcher_spec :
    (∀ (b : BigQueryBatcher) (rows : List ManifestRow), rows ≠ [] →
      (b.buffer ++ rows).length < BQ_BATCH_SIZE →
      b.add rows = (⟨b.table_id, b.buffer ++ rows⟩, [])) ∧
    (∀ (b : BigQueryBatcher) (rows : List ManifestRow), rows ≠ [] →
      BQ_BATCH_SIZE ≤ (b.buffer ++ rows).length →
      b.add rows = (⟨b.table_id, []⟩, [b.buffer ++ rows])) ∧
    (∀ b : BigQueryBatcher, b.buffer = [] → b.flush = (b, [])) ∧
    (∀ b : BigQueryBatcher, b.flush.1.buffer = []) ∧
    (∀ (env : SinkEnv) (batch : List ManifestRow) (s : BQState),
      (execute_merge_query env batch s).raised = false) := by
  refine ⟨?_, ?_, ?_, ?_, ?_⟩
  · intro b rows hne hlt
    have hri : rows.isEmpty = false := by
      cases rows with | nil => exact absurd rfl hne | cons a l => rfl
    have hlt2 : ¬ BQ_BATCH_SIZE ≤ b.buffer.length + rows.length := by
      simpa using Nat.not_le.mpr hlt
    simp [BigQueryBatcher.add, hri, hlt2]
  · intro b rows hne hge
    have hri : rows.isEmpty = false := by cases rows with | nil => exact absurd rfl hne | cons a l => rfl
    have hbe : (b.buffer ++ rows).isEmpty = false := by
      cases rows with
      | nil => exact absurd rfl hne
      | cons a l => simp
    have hge2 : BQ_BATCH_SIZE ≤ b.buffer.length + rows.length := by simpa using hge
    simp [BigQueryBatcher.add, BigQueryBatcher.flush, hri, hge2, hbe]
  · intro b hb
    simp [BigQueryBatcher.flush, hb]
  · intro b
    by_cases hb : b.buffer.isEmpty <;>
      simp_all [BigQueryBatcher.flush, List.isEmpty_iff]
  · intro env batch s
    by_cases hb : batch.isEmpty <;> simp [execute_merge_query, hb]

/-- Witness for C7 at a concrete below-threshold add. -/
theorem BigQueryBatcher_spec_witness :
    BigQueryBatcher.add ⟨"t", []⟩ [⟨some "i", none, none, "m", "d"⟩] =
      (⟨"t", [] ++ [⟨some "i", none, none, "m", "d"⟩]⟩, []) :=
  BigQueryBatcher_spec.1 ⟨"t", []⟩ [⟨some "i", none, none, "m", "d"⟩] (by simp) (by simp [BQ_BATCH_SIZE])

/-- C9 counterexample: with the project, admin and service identities set but
the dataset identifier (and even the table name) missing from the
environment, startup does not terminate: it proceeds with the default table
name, refuting the claim that a missing dataset identifier is fatal. -/
theorem startup_missing_dataset_proceeds :
    startup ⟨some "p", none, none, some "a", some "s"⟩ =
      .ok ⟨some "p", none, "manifest_audit_log", some "a", some "s"⟩ := by
  have hc : sanitizePy "manifest_audit_log" = "manifest_audit_log" := by decide
  simp [startup, pyTruthy, sanitizeOpt, Option.getD, hc]

/-- C9 amended: startup exits (with code 1) exactly when one of `PROJECT_ID`,
`ADMIN_USER_EMAIL`, `SERVICE_ACCOUNT_EMAIL` is missing or empty; the dataset
identifier and table name are not required (the table name defaults). -/
theorem startup_required_vars (e : EnvVars) :
    (startup e = .error 1 ↔
      (pyTruthy e.project_id && pyTruthy e.admin_user_email &&
        pyTruthy e.service_account_email) = false) ∧
    (pyTruthy e.project_id = true → pyTruthy e.admin_user_email = true →
      pyTruthy e.service_account_email = true →
      startup e = .ok ⟨e.project_id, sanitizeOpt e.dataset_id,
        sanitizePy (e.manifest_table_id.getD "manifest_audit_log"),
        e.admin_user_email, e.service_account_email⟩) := by
  constructor
  · by_cases hc : (pyTruthy e.project_id && pyTruthy e.admin_user_email &&
        pyTruthy e.service_account_email) = true <;>
      simp_all [startup]
  · intro h1 h2 h3
    simp [startup, h1, h2, h3]

/-- Witness for C9's amended theorem at a concrete environment. -/
theorem startup_required_vars_witness :
    startup ⟨some "p", some "proj.ds", none, some "a", some "s"⟩ =
      .ok ⟨some "p", sanitizeOpt (some "proj.ds"),
        sanitizePy ((none : Option String).getD "manifest_audit_log"),
        some "a", some "s"⟩ :=
  (startup_required_vars ⟨some "p", some "proj.ds", none, some "a", some "s"⟩).2 rfl rfl rfl

/-- When no file is named `appsscript` with type `JSON`, the scan yields
nothing. -/
lemma findManifest_eq_none (files : List FileEntry)
    (h : ∀ f ∈ files, ¬(f.name = some "appsscript" ∧ f.ftype = some "JSON")) :
    findManifest files = none := by
  induction files with
  | nil => rfl
  | cons f fs ih =>
    have hf := h f (List.mem_cons_self f fs)
    have hcond : (f.name = some "appsscript" && f.ftype = some "JSON") = false := by
      by_cases h1 : f.name = some "appsscript" <;> by_cases h2 : f.ftype = some "JSON" <;>
        simp_all
    simp [findManifest, hcond]
    exact ih (fun g hg => h g (List.mem_cons_of_mem f hg))

/-- C6: one invocation of the manifest extractor body: a file set containing
no `appsscript`/`JSON` file yields absent (`none`) rather than an error; an
HTTP 403 or 404 failure is logged as a warning and re-raised unmodified; any
other unexpected exception (including `TooManyRequests`) is converted to
absent rather than propagated. -/
theorem get_manifest_content_classification :
    (∀ (sid : Option String) (files : List FileEntry),
      (∀ f ∈ files, ¬(f.name = some "appsscript" ∧ f.ftype = some "JSON")) →
      get_manifest_content_once sid (.ok files) = (.ok none, [])) ∧
    (∀ (sid : Option String) (st : Nat), st = 403 ∨ st = 404 →
      get_manifest_content_once sid (.error (.httpError st)) =
        (.error (.httpError st), [.warnAccess sid st])) ∧
    (∀ (sid : Option String) (msg : String),
      get_manifest_content_once sid (.error (.other msg)) = (.ok none, [.errUnknown sid])) ∧
    (∀ sid : Option String,
      get_manifest_content_once sid (.error .tooManyRequests) = (.ok none, [.errUnknown sid])) := by
  refine ⟨?_, ?_, ?_, ?_⟩
  · intro sid files h
    simp [get_manifest_content_once, findManifest_eq_none files h]
  · intro sid st hst
    rcases hst with h | h <;> subst h <;> rfl
  · intro sid msg
    rfl
  · intro sid
    rfl

/-- Witness for C6 at a concrete 404 response. -/
theorem get_manifest_content_classification_witness :
    get_manifest_content_once (some "sid") (.error (.httpError 404)) =
      (.error (.httpError 404), [.warnAccess (some "sid") 404]) :=
  get_manifest_content_classification.2.1 (some "sid") 404 (Or.inr rfl)

/-- C5 counterexample: a script whose `getContent` raises `HttpError` 500 on
all three attempts makes the decorated fetch raise `RetryError`; the scan's
bare `except Exception: continue` skips it and the task completes — but zero
log lines are emitted for that per-script failure, refuting the claim that
every per-script failure is logged. -/
theorem scan_silent_skip_counterexample :
    (get_manifest_content (DriveFile.id ⟨some "f1", some "script one"⟩)
        (exScanEnv500.content (DriveFile.id ⟨some "f1", some "script one"⟩))).1 =
      .error (.retryError (.httpError 500)) ∧
    scan_user_for_manifests exScanEnv500 (some "u") "T" = [] ∧
    attemptLogs exScanEnv500 ⟨some "f1", some "script one"⟩ = [] := by
  exact ⟨rfl, rfl, rfl⟩

/-- C5 amended: the user scan task returns the empty row list (without
raising) when either impersonated service acquisition fails; a per-script
failure (an exception escaping the retried manifest fetch) is skipped and the
scan continues with the remaining scripts exactly as if the failing one were
not processed — but the skip itself is silent: the `except` clause logs
nothing, so a per-script failure whose extractor body emitted no log line on
any attempt produces zero log lines in the task. -/
theorem scan_user_isolation_amended :
    (∀ (env : ScanEnv) (email : Option String) (now : String),
      (env.driveOk && env.scriptOk) = false →
      scan_user_for_manifests env email now = []) ∧
    (∀ (env : ScanEnv) (email : Option String) (now : String) (f : DriveFile)
        (fs : List DriveFile) (acc : List ManifestRow) (e : PyErr),
      (get_manifest_content f.id (env.content f.id)).1 = .error e →
      processFiles env email now (f :: fs) acc = processFiles env email now fs acc) ∧
    (∀ (env : ScanEnv) (f : DriveFile),
      (∀ i, (get_manifest_content_once f.id (env.content f.id i)).2 = []) →
      attemptLogs env f = []) := by
  refine ⟨?_, ?_, ?_⟩
  · intro env email now h
    simp [scan_user_for_manifests, h]
  · intro env email now f fs acc e he
    simp [processFiles, he]
  · intro env f h
    unfold attemptLogs
    refine List.flatten_eq_nil_iff.mpr ?_
    intro l hl
    rcases List.mem_map.mp hl with ⟨i, hi, rfl⟩
    exact h i

/-- Witness for C5's amended theorem: a scan whose script-service acquisition
fails returns no rows. -/
theorem scan_user_isolation_amended_witness :
    scan_user_for_manifests ⟨true, false, [], fun _ _ => .ok []⟩ (some "u") "T" = [] :=
  scan_user_isolation_amended.1 ⟨true, false, [], fun _ _ => .ok []⟩ (some "u") "T" rfl

/-- Rows produced by the per-file loop never carry empty manifest content. -/
lemma processFiles_content_ne_empty (env : ScanEnv) (email : Option String) (now : String) :
    ∀ (fs : List DriveFile) (acc : List ManifestRow),
      (∀ x ∈ acc, x.manifest_content ≠ "") →
      ∀ r ∈ processFiles env email now fs acc, r.manifest_content ≠ "" := by
  intro fs
  induction fs with
  | nil => intro acc hacc r hr; exact hacc r hr
  | cons f fs ih =>
    intro acc hacc r hr
    revert hr
    unfold processFiles
    cases hres : (get_manifest_content f.id (env.content f.id)).1 with
    | ok o =>
      cases o with
      | none => intro hr; exact ih acc hacc r hr
      | some s =>
        by_cases hs : s = ""
        · simp only [hs, if_pos rfl]
          intro hr; exact ih acc hacc r hr
        · simp only [if_neg hs]
          intro hr
          refine ih (acc ++ [⟨f.id, f.name, email, s, now⟩]) ?_ r hr
          intro x hx
          rcases List.mem_append.mp hx with hx1 | hx2
          · exact hacc x hx1
          · have : x = (⟨f.id, f.name, email, s, now⟩ : ManifestRow) := by simpa using hx2
            simpa [this]
    | error e => intro hr; exact ih acc hacc r hr

/-- Rows surviving the paging loop never carry empty manifest content. -/
lemma scanPages_content_ne_empty (env : ScanEnv) (email : Option String) (now : String) :
    ∀ (ps : List (Except PyErr (List DriveFile))) (acc : List ManifestRow),
      (∀ x ∈ acc, x.manifest_content ≠ "") →
      ∀ r ∈ scanPages env email now ps acc, r.manifest_content ≠ "" := by
  intro ps
  induction ps with
  | nil => intro acc hacc r hr; exact hacc r (by simpa [scanPages] using hr)
  | cons p ps ih =>
    intro acc hacc r hr
    cases p with
    | ok files =>
      exact ih (processFiles env email now files acc)
        (processFiles_content_ne_empty env email now files acc hacc) r
        (by simpa [scanPages] using hr)
    | error e => exact hacc r (by simpa [scanPages] using hr)

/-- C10: a script whose manifest extraction yields an empty string produces no
row — the scan treats it exactly like an absent manifest — and consequently
every row the scan task emits has non-empty manifest content. -/
theorem scan_skips_falsy_manifest :
    (∀ (env : ScanEnv) (email : Option String) (now : String) (f : DriveFile)
        (fs : List DriveFile) (acc : List ManifestRow),
      (get_manifest_content f.id (env.content f.id)).1 = .ok (some "") →
      processFiles env email now (f :: fs) acc = processFiles env email now fs acc) ∧
    (∀ (env : ScanEnv) (email : Option String) (now : String) (f : DriveFile)
        (fs : List DriveFile) (acc : List ManifestRow),
      (get_manifest_content f.id (env.content f.id)).1 = .ok none →
      processFiles env email now (f :: fs) acc = processFiles env email now fs acc) ∧
    (∀ (env : ScanEnv) (email : Option String) (now : String),
      ∀ r ∈ scan_user_for_manifests env email now, r.manifest_content ≠ "") := by
  refine ⟨?_, ?_, ?_⟩
  · intro env email now f fs acc h
    simp [processFiles, h]
  · intro env email now f fs acc h
    simp [processFiles, h]
  · intro env email now r hr
    by_cases hok : (env.driveOk && env.scriptOk) = true
    · exact scanPages_content_ne_empty env email now env.drivePages []
        (by intro x hx; simp at hx) r (by simpa [scan_user_for_manifests, hok] using hr)
    · have h2 : (env.driveOk && env.scriptOk) = false := Bool.eq_false_iff.mpr hok
      simp [scan_user_for_manifests, h2] at hr

/-- Witness for C10: a script whose only `appsscript` file has empty source is
skipped just like one with no manifest at all. -/
theorem scan_skips_falsy_manifest_witness :
    processFiles ⟨true, true, [], fun _ _ => .ok [⟨some "appsscript", some "JSON", some ""⟩]⟩
        (some "u") "T" ([⟨some "f1", some "n1"⟩] ++ []) [] =
      processFiles ⟨true, true, [], fun _ _ => .ok [⟨some "appsscript", some "JSON", some ""⟩]⟩
        (some "u") "T" [] [] :=
  scan_skips_falsy_manifest.1
    ⟨true, true, [], fun _ _ => .ok [⟨some "appsscript", some "JSON", some ""⟩]⟩
    (some "u") "T" ⟨some "f1", some "n1"⟩ [] [] rfl

/-- The retry loop never makes more invocations than its attempt budget. -/
lemma retryLoop_attempts_le {α : Type} (op : Nat → Except PyErr α) (waitFn : Nat → Nat) :
    ∀ (rem idx : Nat), (retryLoop op waitFn idx rem).2.1 ≤ rem := by
  intro rem
  induction rem with
  | zero => intro idx; simp [retryLoop]
  | succ n ih =>
    intro idx
    unfold retryLoop
    cases op idx with
    | ok a => simp
    | error e =>
      cases he : isRetryable e with
      | false => simp [he]
      | true =>
        cases n with
        | zero => simp [he]
        | succ m =>
          have ihm := ih (idx + 1)
          rcases hrec : retryLoop op waitFn (idx + 1) (m + 1) with ⟨r, n1, ws⟩
          rw [hrec] at ihm
          simp at ihm
          simp [he, hrec]
          omega

/-- C3 counterexample: an operation that fails retryably on all three
attempts makes the decorated call raise `RetryError` wrapping the third
error — not the third error unmodified, refuting the claim that exhaustion
propagates the last error unmodified. -/
theorem retry_exhaustion_wraps_counterexample :
    retryCall (fun n => (.error (.httpError (500 + n)) : Except PyErr (Option String))) =
      (.error (.retryError (.httpError 502)), 3, [2, 4]) ∧
    (retryCall (fun n => (.error (.httpError (500 + n)) : Except PyErr (Option String)))).1 ≠
      .error (.httpError 502) := by
  refine ⟨rfl, ?_⟩
  intro h
  have h1 : (retryCall (fun n =>
      (.error (.httpError (500 + n)) : Except PyErr (Option String)))).1 =
      .error (.retryError (.httpError 502)) := rfl
  rw [h1] at h
  simp at h

/-- C3 amended: the retry policy on the manifest fetch: every call makes at
most 3 invocations of the wrapped operation; a non-retryable first failure
propagates unmodified after a single invocation with no backoff sleeps; three
consecutive retryable failures exhaust the budget after exactly 3
invocations, having slept 2 then 4 time-units, and raise `RetryError`
wrapping the third error (the decorator is used without `reraise=True`, so
the last error is wrapped, not re-raised unmodified); two retryable failures
followed by a success yield the success on the third invocation; and every
backoff sleep of the schedule lies between 2 and 10 time-units. -/
theorem retry_policy_amended :
    (∀ (op : Nat → Except PyErr (Option String)), (retryCall op).2.1 ≤ 3) ∧
    (∀ (op : Nat → Except PyErr (Option String)) (e : PyErr),
      op 0 = .error e → isRetryable e = false → retryCall op = (.error e, 1, [])) ∧
    (∀ (op : Nat → Except PyErr (Option String)) (e0 e1 e2 : PyErr),
      op 0 = .error e0 → op 1 = .error e1 → op 2 = .error e2 →
      isRetryable e0 = true → isRetryable e1 = true → isRetryable e2 = true →
      retryCall op = (.error (.retryError e2), 3, [2, 4])) ∧
    (∀ (op : Nat → Except PyErr (Option String)) (e0 e1 : PyErr) (a : Option String),
      op 0 = .error e0 → op 1 = .error e1 → op 2 = .ok a →
      isRetryable e0 = true → isRetryable e1 = true →
      retryCall op = (.ok a, 3, [2, 4])) ∧
    (∀ n : Nat, 2 ≤ tenacityWait n ∧ tenacityWait n ≤ 10) := by
  refine ⟨?_, ?_, ?_, ?_, ?_⟩
  · intro op
    exact retryLoop_attempts_le op tenacityWait 3 0
  · intro op e h0 hr
    unfold retryCall retryLoop
    simp [h0, hr]
  · intro op e0 e1 e2 h0 h1 h2 hr0 hr1 hr2
    unfold retryCall retryLoop retryLoop retryLoop
    simp [h0, h1, h2, hr0, hr1, hr2]
    decide
  · intro op e0 e1 a h0 h1 h2 hr0 hr1
    unfold retryCall retryLoop retryLoop retryLoop
    simp [h0, h1, h2, hr0, hr1]
    decide
  · intro n
    constructor
    · simp only [tenacityWait, wait_exponential]
      omega
    · simp only [tenacityWait, wait_exponential]
      omega

/-- Witness for C3's amended theorem: a non-retryable error propagates
unmodified after a single invocation. -/
theorem retry_policy_amended_witness :
    retryCall (fun _ => (.error (.other "boom") : Except PyErr (Option String))) =
      (.error (.other "boom"), 1, []) :=
  retry_policy_amended.2.1 (fun _ => .error (.other "boom")) (.other "boom") rfl rfl

/-- C8: `main_handler` returns one of the four documented responses; a failed
admin impersonation returns `("Admin Auth Failure", 500)` immediately with no
sink call; an empty active-user list returns `("No Users Found", 200)` with
no sink call. -/
theorem main_handler_responses :
    (∀ env : MainEnv,
      (main_handler env).1 = ("Success", 200) ∨
      (main_handler env).1 = ("No Users Found", 200) ∨
      (main_handler env).1 = ("Admin Auth Failure", 500) ∨
      ∃ d : String, (main_handler env).1 = ("Failed: " ++ d, 500)) ∧
    (∀ env : MainEnv, env.adminOk = false →
      main_handler env = (("Admin Auth Failure", 500), [])) ∧
    (∀ env : MainEnv, env.adminOk = true → get_all_domain_users env.userPages = [] →
      main_handler env = (("No Users Found", 200), [])) := by
  refine ⟨?_, ?_, ?_⟩
  · intro env
    unfold main_handler
    cases ha : env.adminOk with
    | false => simp
    | true =>
      cases hu : (get_all_domain_users env.userPages).isEmpty with
      | true => simp [hu]
      | false => simp [hu]
  · intro env ha
    unfold main_handler
    simp [ha]
  · intro env ha hu
    unfold main_handler
    simp [ha, hu]

/-- Witness for C8: a run with failed admin impersonation. -/
theorem main_handler_responses_witness :
    main_handler ⟨false, [], fun _ => ⟨false, false, [], fun _ _ => .ok []⟩, "t", "T"⟩ =
      (("Admin Auth Failure", 500), []) :=
  main_handler_responses.2.1
    ⟨false, [], fun _ => ⟨false, false, [], fun _ _ => .ok []⟩, "t", "T"⟩ rfl

/-- C4 counterexample: in `exScanEnv` the Drive listing raises on its second
page, yet `scan_user_for_manifests` returns the row harvested from the first
page — a partial accumulation IS returned to the caller, refuting the claim
for the per-user file listing. -/
theorem scan_partial_on_page_failure :
    scan_user_for_manifests exScanEnv (some "u") "T" =
      [⟨some "s1", some "script one", some "u", "manifest body", "T"⟩] ∧
    scan_user_for_manifests exScanEnv (some "u") "T" ≠ [] := by
  constructor
  · rfl
  · intro h
    simp [scan_user_for_manifests, exScanEnv, scanPages, processFiles,
      get_manifest_content, retryCall, retryLoop, get_manifest_content_once,
      findManifest] at h

/-- C4 amended: the two paginated collections handle a page failure
differently.  The directory-user listing drops everything: any page failure
makes `get_all_domain_users` return the empty list (no partial accumulation).
The per-user file listing keeps its partial work: a page failure makes the
paging loop return exactly the rows accumulated from the earlier pages.
Neither raises to its caller. -/
theorem pagination_failure_modes :
    (∀ (pages : List (Except PyErr (List DomainUser))) (e : PyErr),
      collectUsers pages [] = .error e → get_all_domain_users pages = []) ∧
    (∀ (env : ScanEnv) (email : Option String) (now : String)
        (ps : List (Except PyErr (List DriveFile))) (acc : List ManifestRow) (e : PyErr),
      scanPages env email now (.error e :: ps) acc = acc) := by
  constructor
  · intro pages e h
    simp [get_all_domain_users, h]
  · intro env email now ps acc e
    rfl

/-- Witness for C4's amended theorem: a directory listing failing on its first
page yields no users. -/
theorem pagination_failure_modes_witness :
    get_all_domain_users [.error (.other "boom")] = [] :=
  pagination_failure_modes.1 [.error (.other "boom")] (.other "boom") rfl

/-- The merge result's key column: the target keys (updates preserve each
target row's `script_id`) followed by the keys of the inserted rows. -/
lemma applyMerge_map_script_id (target batch : List ManifestRow) :
    (applyMerge target batch).map ManifestRow.script_id =
      target.map ManifestRow.script_id ++
      (batch.filter (fun s => !target.any (fun t => sqlEq t.script_id s.script_id))).map
        ManifestRow.script_id := by
  unfold applyMerge
  rw [List.map_append, List.map_map]
  congr 1
  apply List.map_congr_left
  intro t _
  simp only [Function.comp_apply]
  cases hf : batch.find? (fun s => sqlEq t.script_id s.script_id) <;> simp [hf, updateRow]

/-- The merge preserves unique keying: with distinct staging keys (all
present) and distinct target keys, the merged table's keys are distinct. -/
lemma applyMerge_keys_nodup (target batch : List ManifestRow)
    (hb : ∀ r ∈ batch, r.script_id.isSome = true)
    (hbn : (batch.map ManifestRow.script_id).Nodup)
    (htn : (target.map ManifestRow.script_id).Nodup) :
    ((applyMerge target batch).map ManifestRow.script_id).Nodup := by
  rw [applyMerge_map_script_id, List.nodup_append]
  refine ⟨htn, ((List.filter_sublist batch).map ManifestRow.script_id).nodup hbn, ?_⟩
  intro k hk1 hk2
  rcases List.mem_map.mp hk1 with ⟨t, ht, rfl⟩
  rcases List.mem_map.mp hk2 with ⟨s, hsmem, hks⟩
  rcases List.mem_filter.mp hsmem with ⟨hsb, hsf⟩
  have hsome : s.script_id.isSome = true := hb s hsb
  have hany : target.any (fun t2 => sqlEq t2.script_id s.script_id) = true :=
    List.any_eq_true.mpr ⟨t, ht, sqlEq_of_eq_some (hks ▸ hsome) hks.symm⟩
  simp [hany] at hsf

/-- Each staging row ends up, verbatim, in the merged table: as the update of
the matching target row when its key is present, as an insert otherwise. -/
lemma mem_applyMerge_self (target batch : List ManifestRow) (s : ManifestRow)
    (hb : ∀ r ∈ batch, r.script_id.isSome = true)
    (hbn : (batch.map ManifestRow.script_id).Nodup)
    (hs : s ∈ batch) :
    s ∈ applyMerge target batch := by
  by_cases hm : target.any (fun t => sqlEq t.script_id s.script_id) = true
  · rcases List.any_eq_true.mp hm with ⟨t, ht, hts⟩
    refine List.mem_append.mpr (Or.inl (List.mem_map.mpr ⟨t, ht, ?_⟩))
    have hfind : batch.find? (fun s1 => sqlEq t.script_id s1.script_id) = some s := by
      cases hf : batch.find? (fun s1 => sqlEq t.script_id s1.script_id) with
      | none =>
        have := List.find?_eq_none.mp hf s hs
        simp [hts] at this
      | some s1 =>
        have hp := List.find?_some hf
        have hmem := List.mem_of_find?_eq_some hf
        have h1 : t.script_id = s1.script_id := eq_of_sqlEq hp
        have h2 : t.script_id = s.script_id := eq_of_sqlEq hts
        have hss : s1 = s :=
          List.inj_on_of_nodup_map hbn hmem hs (h1.symm.trans h2)
        rw [hss]
    simp only [hfind]
    have hk : t.script_id = s.script_id := eq_of_sqlEq hts
    unfold updateRow
    rw [hk]
  · refine List.mem_append.mpr (Or.inr (List.mem_filter.mpr ⟨hs, ?_⟩))
    simp [Bool.eq_false_iff.mpr hm]

/-- One merge of a uniquely keyed batch into a uniquely keyed target leaves
exactly one row carrying each staging row's key, and that row is the staging
row itself. -/
lemma applyMerge_filter_key (target batch : List ManifestRow) (s : ManifestRow)
    (hb : ∀ r ∈ batch, r.script_id.isSome = true)
    (hbn : (batch.map ManifestRow.script_id).Nodup)
    (htn : (target.map ManifestRow.script_id).Nodup)
    (hs : s ∈ batch) :
    (applyMerge target batch).filter (fun r => sqlEq r.script_id s.script_id) = [s] := by
  have hnd : ((applyMerge target batch).map ManifestRow.script_id).Nodup :=
    applyMerge_keys_nodup target batch hb hbn htn
  have hmem : s ∈ applyMerge target batch := mem_applyMerge_self target batch s hb hbn hs
  refine filter_eq_singleton _ _ s (List.Nodup.of_map _ hnd) hmem
    (sqlEq_of_eq_some (hb s hs) rfl) ?_
  intro x hx hpx
  exact List.inj_on_of_nodup_map hnd hx hmem (eq_of_sqlEq hpx)

/-- C2: last-write-wins idempotence of the merge step: for a batch with
distinct, present `script_id`s merged twice into a uniquely keyed target
table, the result is still uniquely keyed by `script_id` and, for every batch
row, contains exactly one row with that `script_id`, whose field values are
exactly the (second) batch's values. -/
theorem merge_upsert_idempotent (target batch : List ManifestRow) (s : ManifestRow)
    (hb : ∀ r ∈ batch, r.script_id.isSome = true)
    (hbn : (batch.map ManifestRow.script_id).Nodup)
    (htn : (target.map ManifestRow.script_id).Nodup)
    (hs : s ∈ batch) :
    ((applyMerge (applyMerge target batch) batch).map ManifestRow.script_id).Nodup ∧
    (applyMerge (applyMerge target batch) batch).filter
      (fun r => sqlEq r.script_id s.script_id) = [s] := by
  have h1 := applyMerge_keys_nodup target batch hb hbn htn
  exact ⟨applyMerge_keys_nodup _ batch hb hbn h1,
    applyMerge_filter_key _ batch s hb hbn h1 hs⟩

/-- Witness for C2: one row merged twice into an initially empty target. -/
theorem merge_upsert_idempotent_witness :
    ((applyMerge (applyMerge [] [⟨some "id1", some "n", some "o", "m", "d"⟩])
        [⟨some "id1", some "n", some "o", "m", "d"⟩]).map ManifestRow.script_id).Nodup ∧
    (applyMerge (applyMerge [] [⟨some "id1", some "n", some "o", "m", "d"⟩])
        [⟨some "id1", some "n", some "o", "m", "d"⟩]).filter
      (fun r => sqlEq r.script_id
        (ManifestRow.script_id ⟨some "id1", some "n", some "o", "m", "d"⟩)) =
      [⟨some "id1", some "n", some "o", "m", "d"⟩] :=
  merge_upsert_idempotent [] [⟨some "id1", some "n", some "o", "m", "d"⟩]
    ⟨some "id1", some "n", some "o", "m", "d"⟩
    (by intro r hr; simp at hr; simp [hr]) (by simp) (by simp) (by simp)

end ManifestRetriever
